import Mathlib

/-!
Verification of `screenwatch` (src/screenwatch/monitor.py) against its
specification.  The Python source is shallowly embedded: pure string
manipulation becomes Lean string functions, the debounce coordinator becomes
an explicit transition system, the readiness-wait loop becomes a fuelled
recursion whose fuel is exactly the loop's iteration bound, and Python
exceptions become `Except` values.  All configuration strings in scope are
ASCII, so `Char.toLower`-based lowering coincides with Python `str.lower()`.
-/

namespace Screenwatch

/-! ## Python string primitives -/

/-- Characters stripped by Python `str.strip()` (the ASCII whitespace set,
which is all that can occur in the config values in scope). -/
def isPySpace (c : Char) : Bool :=
  c = ' ' || c = '\t' || c = '\n' || c = '\r' || c = '\x0b' || c = '\x0c'

/-- Python `str.strip()`: drop leading and trailing whitespace. -/
def pyStrip (s : String) : String :=
  String.mk (((s.data.dropWhile isPySpace).reverse.dropWhile isPySpace).reverse)

/-- Python `str.lower()` on ASCII data. -/
def pyLower (s : String) : String :=
  String.mk (s.data.map Char.toLower)

/-- Does `hay` start with `needle` (on character lists)? -/
def startsWithL : List Char → List Char → Bool
  | _, [] => true
  | [], _ :: _ => false
  | a :: as, b :: bs => a == b && startsWithL as bs

/-- Substring containment on character lists: `needle` occurs contiguously in
`hay`.  The empty needle occurs in everything, as in Python. -/
def containsSub : List Char → List Char → Bool
  | [], needle => needle.isEmpty
  | h :: t, needle => startsWithL (h :: t) needle || containsSub t needle

/-- Python `needle in hay` for strings. -/
def pyIn (needle hay : String) : Bool :=
  containsSub hay.data needle.data

/-- Worker for `pySplit`: `acc` holds the current fragment reversed. -/
def splitAux (sep : Char) : List Char → List Char → List String
  | [], acc => [String.mk acc.reverse]
  | c :: cs, acc =>
    if c == sep then String.mk acc.reverse :: splitAux sep cs []
    else splitAux sep cs (c :: acc)

/-- Python `s.split(sep)` for a one-character separator: every occurrence of
`sep` produces a fragment boundary, so `"".split(",") = [""]` and adjacent
separators yield empty fragments. -/
def pySplit (sep : Char) (s : String) : List String :=
  splitAux sep s.data []

/-! ## Desktop-environment exclusion (`_get_desktop_environment`,
`_is_desktop_excluded`, monitor.py lines 60-89) -/

/-- `_get_desktop_environment`: first non-empty (after strip) of
`XDG_CURRENT_DESKTOP`, `XDG_SESSION_DESKTOP`, `DESKTOP_SESSION`; `none` when
all are empty. -/
def get_desktop_environment (xdgCurrent xdgSession desktopSession : String) :
    Option String :=
  let c := pyStrip xdgCurrent
  if c ≠ "" then some c else
  let s := pyStrip xdgSession
  if s ≠ "" then some s else
  let d := pyStrip desktopSession
  if d ≠ "" then some d else none

/-- The processed exclusion list (monitor.py lines 78-79): split the
configured `excluded_desktops` value on commas, keep the fragments that are
non-empty after stripping, and lower-case each stripped fragment. -/
def excludedList (cfgExcluded : String) : List String :=
  ((pySplit ',' cfgExcluded).filter (fun d => !(pyStrip d == ""))).map
    (fun d => pyLower (pyStrip d))

/-- `_is_desktop_excluded` (monitor.py lines 72-89): `desktop` is the result
of `_get_desktop_environment`; a falsy (missing or empty) desktop is never
excluded; otherwise the lower-cased desktop is matched against each processed
fragment by substring containment in either direction. -/
def is_desktop_excluded (desktop : Option String) (cfgExcluded : String) :
    Bool :=
  match desktop with
  | none => false
  | some d =>
    if d = "" then false
    else
      let dl := pyLower d
      (excludedList cfgExcluded).any (fun e => pyIn e dl || pyIn dl e)

/-! ## Helper lemmas for the exclusion logic -/

lemma pyLower_eq_empty_iff (s : String) : pyLower s = "" ↔ s = "" := by
  cases s with
  | mk data =>
    simp [pyLower, String.ext_iff]

/-- C5: for every detected desktop identifier `d` and configured value, the
exclusion check lower-cases both sides and excludes iff some configured
fragment (after stripping, and dropping blanks) is a substring of the desktop
or vice versa; in particular configured `"GNOME"` excludes detected
`"gnome-classic"`, and detected `"GNOME-shell"` is excluded by configured
`"gnome"`. -/
theorem exclusion_substring_bidirectional (d cfg : String) (hd : d ≠ "") :
    (is_desktop_excluded (some d) cfg = true ↔
      ∃ e ∈ pySplit ',' cfg, pyStrip e ≠ "" ∧
        (pyIn (pyLower (pyStrip e)) (pyLower d) = true ∨
         pyIn (pyLower d) (pyLower (pyStrip e)) = true)) ∧
    is_desktop_excluded (some "gnome-classic") "GNOME" = true ∧
    is_desktop_excluded (some "GNOME-shell") "gnome" = true := by
  refine ⟨?_, by decide, by decide⟩
  simp only [is_desktop_excluded, hd, if_false, List.any_eq_true, excludedList,
    List.mem_map, List.mem_filter, Bool.or_eq_true, Bool.not_eq_true',
    beq_eq_false_iff_ne, ne_eq]
  constructor
  · rintro ⟨x, ⟨a, ⟨ha, hane⟩, rfl⟩, hmatch⟩
    exact ⟨a, ha, hane, hmatch⟩
  · rintro ⟨e, he, hene, hmatch⟩
    exact ⟨pyLower (pyStrip e), ⟨e, ⟨he, hene⟩, rfl⟩, hmatch⟩

theorem exclusion_substring_bidirectional_witness :
    is_desktop_excluded (some "gnome-classic") "GNOME" = true :=
  (exclusion_substring_bidirectional "gnome-classic" "GNOME" (by decide)).1.mpr
    ⟨"GNOME", by decide, by decide, Or.inl (by decide)⟩

/-- C10: blank or whitespace-only fragments of `excluded_desktops` are
dropped before matching — the empty string never enters the processed
exclusion list — and a configured value whose fragments are all blank
excludes no desktop at all. -/
theorem blank_fragments_excluded_nothing (cfg : String) :
    "" ∉ excludedList cfg ∧
    (((pySplit ',' cfg).all fun e => pyStrip e == "") = true →
      ∀ dsk : Option String, is_desktop_excluded dsk cfg = false) := by
  constructor
  · intro hmem
    simp only [excludedList, List.mem_map, List.mem_filter, Bool.not_eq_true',
      beq_eq_false_iff_ne, ne_eq] at hmem
    obtain ⟨a, ⟨_, hane⟩, hEq⟩ := hmem
    exact hane ((pyLower_eq_empty_iff _).mp hEq)
  · intro hall dsk
    have hnil : excludedList cfg = [] := by
      simp only [excludedList, List.map_eq_nil_iff, List.filter_eq_nil_iff,
        Bool.not_eq_true', Bool.not_eq_false, beq_iff_eq]
      intro a ha
      exact beq_iff_eq.mp ((List.all_eq_true.mp hall) a ha)
    cases dsk with
    | none => rfl
    | some d =>
      by_cases hdd : d = ""
      · simp [is_desktop_excluded, hdd]
      · simp [is_desktop_excluded, hdd, hnil]

theorem blank_fragments_excluded_nothing_witness :
    ((pySplit ',' " , ,").all fun e => pyStrip e == "") = true ∧
    is_desktop_excluded (some "KDE") " , ," = false :=
  ⟨by decide, (blank_fragments_excluded_nothing " , ,").2 (by decide) (some "KDE")⟩

/-! ## The Debounce Coordinator (`_debounced_execute`, monitor.py lines
122-134)

`self.debounce_timer` holds a reference to the most recently created
`threading.Timer`; `_debounced_execute` cancels it (a no-op if it already
fired or was never set) and then arms a fresh one.  We give each created
timer a fresh id; `alive` is the set of timers that are armed and have
neither fired nor been cancelled, and `cur` is the `self.debounce_timer`
reference (which keeps pointing at a timer even after it fired).
`_debounced_execute` runs on the single udev-monitor thread, so its
cancel-then-arm sequence is one atomic step relative to any other event;
a timer expiry (`CoordStep.fire`) may interleave anywhere. -/

structure CoordState where
  alive : List Nat
  cur : Option Nat
  next : Nat
deriving DecidableEq

/-- The initial coordinator state: `self.debounce_timer = None`, no timer
alive (monitor.py line 19). -/
def initCoord : CoordState := { alive := [], cur := none, next := 0 }

/-- Events of the coordinator: `ev` is a call to `_debounced_execute`
(cancel the current timer, then arm a fresh one); `fire i` is the expiry of
timer `i`, which has an effect only while `i` is still armed. -/
inductive CoordStep where
  | ev
  | fire (i : Nat)
deriving DecidableEq

/-- One transition of the coordinator. -/
def stepCoord (s : CoordState) : CoordStep → CoordState
  | .ev =>
    let alive1 := match s.cur with
      | some i => s.alive.erase i
      | none => s.alive
    { alive := s.next :: alive1, cur := some s.next, next := s.next + 1 }
  | .fire i =>
    if i ∈ s.alive then { s with alive := s.alive.erase i } else s

/-- Run the coordinator over a list of steps from the initial state. -/
def runCoord (tr : List CoordStep) : CoordState :=
  tr.foldl stepCoord initCoord

/-- The coordinator invariant: either no timer is alive, or exactly one is
and it is the one referenced by `self.debounce_timer`. -/
def CoordInv (s : CoordState) : Prop :=
  s.alive = [] ∨ ∃ i, s.alive = [i] ∧ s.cur = some i

lemma coordInv_init : CoordInv initCoord :=
  Or.inl rfl

lemma coordInv_step {s : CoordState} (h : CoordInv s) (st : CoordStep) :
    CoordInv (stepCoord s st) := by
  cases st with
  | ev =>
    right
    refine ⟨s.next, ?_, rfl⟩
    have halive1 : (match s.cur with
        | some j => s.alive.erase j
        | none => s.alive) = [] := by
      rcases h with h0 | ⟨i, hi, hc⟩
      · cases hcur : s.cur <;> simp [h0]
      · rw [hc, hi]
        simp
    simp only [stepCoord, halive1]
  | fire i =>
    simp only [stepCoord]
    by_cases hmem : i ∈ s.alive
    · rcases h with h0 | ⟨j, hj, hc⟩
      · rw [h0] at hmem
        exact absurd hmem (List.not_mem_nil i)
      · rw [hj] at hmem
        have : i = j := by simpa using hmem
        subst this
        left
        simp [hmem, hj]
    · simp [hmem]
      exact h

lemma coordInv_run (tr : List CoordStep) : CoordInv (runCoord tr) := by
  suffices hgen : ∀ s, CoordInv s → CoordInv (tr.foldl stepCoord s) from
    hgen initCoord coordInv_init
  induction tr with
  | nil => intro s hs; exact hs
  | cons st rest ih =>
    intro s hs
    exact ih _ (coordInv_step hs st)

/-- C2: in every reachable coordinator state at most one pending timer is
alive, and handling a new event (`_debounced_execute`) first cancels the
armed timer and then arms exactly one replacement: after the event step the
freshly armed timer is the only alive one and is the one referenced by
`self.debounce_timer`. -/
theorem at_most_one_pending_timer (tr : List CoordStep) :
    (runCoord tr).alive.length ≤ 1 ∧
    (stepCoord (runCoord tr) CoordStep.ev).alive = [(runCoord tr).next] ∧
    (stepCoord (runCoord tr) CoordStep.ev).cur = some (runCoord tr).next := by
  have h := coordInv_run tr
  have hlen : (runCoord tr).alive.length ≤ 1 := by
    rcases h with h0 | ⟨i, hi, _⟩
    · simp [h0]
    · simp [hi]
  have hstep := coordInv_step h CoordStep.ev
  refine ⟨hlen, ?_, rfl⟩
  have halive1 : (match (runCoord tr).cur with
      | some j => (runCoord tr).alive.erase j
      | none => (runCoord tr).alive) = [] := by
    rcases h with h0 | ⟨i, hi, hc⟩
    · cases hcur : (runCoord tr).cur <;> simp [h0]
    · rw [hc, hi]
      simp
  simp only [stepCoord, halive1]

/-! ## Timed semantics of the debounce (`_debounced_execute` with
`threading.Timer(delay, execute_with_wait)`)

Each event at time `t` cancels the pending timer and arms a fresh one whose
deadline is `t + delay`.  A timer fires iff no later event arrives strictly
before its deadline; firing starts one execution attempt
(`_wait_for_displays_ready` followed by `_execute_command`) at the deadline.
`fireTimes` lists the start times of the execution attempts produced by a
finite event sequence. -/

/-- Start times of execution attempts for events at the given times with
debounce delay `d`: the timer armed by an event survives iff the next event
arrives no earlier than its deadline; the last event's timer always fires. -/
def fireTimes (d : ℚ) : List ℚ → List ℚ
  | [] => []
  | [t] => [t + d]
  | t :: t' :: rest =>
    if t' < t + d then fireTimes d (t' :: rest)
    else (t + d) :: fireTimes d (t' :: rest)

/-- Every consecutive pair of event times is strictly less than `d` apart. -/
def burstGaps (d : ℚ) : List ℚ → Bool
  | t :: t' :: rest => decide (t' < t + d) && burstGaps d (t' :: rest)
  | _ => true

/-- C1: a burst of `N ≥ 1` events in which each event arrives strictly less
than `debounce_delay` after the previous one produces exactly one execution
attempt, scheduled `debounce_delay` after the last event of the burst. -/
theorem debounce_coalesces_burst (d : ℚ) (ts : List ℚ) (hne : ts ≠ [])
    (hgaps : burstGaps d ts = true) :
    fireTimes d ts = [ts.getLast hne + d] := by
  induction ts with
  | nil => exact absurd rfl hne
  | cons t rest ih =>
    cases rest with
    | nil => rfl
    | cons t' rest' =>
      have hgap : t' < t + d := by
        have := hgaps
        simp only [burstGaps, Bool.and_eq_true, decide_eq_true_eq] at this
        exact this.1
      have hgaps' : burstGaps d (t' :: rest') = true := by
        have := hgaps
        simp only [burstGaps, Bool.and_eq_true] at this
        exact this.2
      have hne' : t' :: rest' ≠ [] := List.cons_ne_nil _ _
      calc fireTimes d (t :: t' :: rest')
          = fireTimes d (t' :: rest') := by simp [fireTimes, hgap]
        _ = [(t' :: rest').getLast hne' + d] := ih hne' hgaps'
        _ = [(t :: t' :: rest').getLast (List.cons_ne_nil _ _) + d] := by
            rw [List.getLast_cons hne']

/-- Witness for C1, the spec's scenario: `debounce_delay = 0.1`, events at
`t = 0, 0.05, 0.08` yield exactly one execution scheduled at `0.18`. -/
theorem debounce_coalesces_burst_witness :
    fireTimes (1/10) [0, 1/20, 2/25] = [9/50] := by
  have h := debounce_coalesces_burst (1/10) [0, 1/20, 2/25]
    (List.cons_ne_nil _ _) (by norm_num [burstGaps])
  rw [h]
  norm_num [List.getLast]

/-! ## Device-event filtering (`_handle_device_event`, monitor.py lines
174-182) -/

/-- A udev device event as seen by `_handle_device_event`: its action
string, its `sys_name`, and its `device_type` (`none` models pyudev
returning `None`). -/
structure UdevDevice where
  action : String
  sysName : String
  deviceType : Option String
deriving DecidableEq

/-- The filter of `_handle_device_event`: the event reaches
`_debounced_execute` iff its action is `change`, `add` or `remove` and the
device is a card device (`'card' in sys_name`) or a `drm_minor` device. -/
def event_forwarded (dev : UdevDevice) : Bool :=
  (dev.action == "change" || dev.action == "add" || dev.action == "remove") &&
  (pyIn "card" dev.sysName || dev.deviceType == some "drm_minor")

/-- `_handle_device_event` acting on the coordinator state: a forwarded
event performs the debounce step; any other event leaves the state
untouched. -/
def handle_device_event (s : CoordState) (dev : UdevDevice) : CoordState :=
  if event_forwarded dev then stepCoord s CoordStep.ev else s

/-- C7: an event is forwarded to the Debounce Coordinator iff its action is
one of add/change/remove and its device is a display-card or `drm_minor`
device; a filtered-out event leaves the coordinator's timer state
unchanged, a forwarded one performs exactly the debounce step. -/
theorem device_event_filter (dev : UdevDevice) (s : CoordState) :
    (event_forwarded dev = true ↔
      dev.action ∈ (["add", "change", "remove"] : List String) ∧
      (pyIn "card" dev.sysName = true ∨ dev.deviceType = some "drm_minor")) ∧
    (event_forwarded dev = false → handle_device_event s dev = s) ∧
    (event_forwarded dev = true →
      handle_device_event s dev = stepCoord s CoordStep.ev) := by
  refine ⟨?_, ?_, ?_⟩
  · simp only [event_forwarded, Bool.and_eq_true, Bool.or_eq_true,
      beq_iff_eq, List.mem_cons, List.mem_singleton, List.not_mem_nil,
      or_false]
    tauto
  · intro h
    simp [handle_device_event, h]
  · intro h
    simp [handle_device_event, h]

theorem device_event_filter_witness :
    handle_device_event initCoord
        { action := "change", sysName := "card0-HDMI-A-1", deviceType := none }
      = stepCoord initCoord CoordStep.ev ∧
    handle_device_event initCoord
        { action := "bind", sysName := "card0", deviceType := none }
      = initCoord :=
  ⟨(device_event_filter
      { action := "change", sysName := "card0-HDMI-A-1", deviceType := none }
      initCoord).2.2 (by decide),
   (device_event_filter
      { action := "bind", sysName := "card0", deviceType := none }
      initCoord).2.1 (by decide)⟩

/-! ## Readiness probing (`_wait_for_displays_ready`, monitor.py lines
136-172)

The connector scan inside the while loop enumerates DRM devices and counts
those with `'card'` in their `sys_name`, a `status` attribute available, and
a status reading of `"connected"`; an exception while reading the attribute
is swallowed (`except: pass`), contributing nothing. -/

/-- A DRM device as seen by the connector scan: its `sys_name`, whether
`'status'` is among its available attributes, and the result of reading the
`status` attribute (`none` models `asstring` raising). -/
structure DrmDevice where
  sysName : String
  hasStatusAttr : Bool
  statusRead : Option String
deriving DecidableEq

/-- The connector scan (monitor.py lines 153-162): count the connected
displays in one enumeration, skipping devices without a `status` attribute
and treating a failed read as not connected. -/
def count_connected : List DrmDevice → Nat
  | [] => 0
  | dev :: rest =>
    (if pyIn "card" dev.sysName && dev.hasStatusAttr then
      match dev.statusRead with
      | some st => if st = "connected" then 1 else 0
      | none => 0
    else 0) + count_connected rest

/-- C8: the connector scan is a total function of the enumeration — it never
aborts — and it counts exactly the card devices that expose a `status`
attribute and whose read yields `"connected"`; a device lacking the
attribute, or whose read fails, contributes nothing. -/
theorem probe_counts_connected (devs : List DrmDevice) :
    count_connected devs =
      (devs.filter fun dev => pyIn "card" dev.sysName && dev.hasStatusAttr &&
        dev.statusRead == some "connected").length ∧
    (∀ dev : DrmDevice, dev.hasStatusAttr = false →
      count_connected (dev :: devs) = count_connected devs) ∧
    (∀ dev : DrmDevice, dev.statusRead = none →
      count_connected (dev :: devs) = count_connected devs) := by
  refine ⟨?_, ?_, ?_⟩
  · induction devs with
    | nil => rfl
    | cons dev rest ih =>
      cases hcard : pyIn "card" dev.sysName with
      | false => simp [count_connected, List.filter_cons, hcard, ih]
      | true =>
        cases hattr : dev.hasStatusAttr with
        | false => simp [count_connected, List.filter_cons, hcard, hattr, ih]
        | true =>
          cases hread : dev.statusRead with
          | none =>
            simp [count_connected, List.filter_cons, hcard, hattr, hread, ih]
          | some st =>
            by_cases hconn : st = "connected"
            · subst hconn
              simp [count_connected, List.filter_cons, hcard, hattr, hread,
                ih, Nat.add_comm]
            · simp [count_connected, List.filter_cons, hcard, hattr, hread,
                hconn, ih]
  · intro dev hattr
    simp [count_connected, hattr]
  · intro dev hread
    simp [count_connected, hread]

theorem probe_counts_connected_witness :
    count_connected
      [ { sysName := "card0-HDMI-A-1", hasStatusAttr := true,
          statusRead := some "connected" },
        { sysName := "card0-DP-1", hasStatusAttr := true,
          statusRead := some "disconnected" },
        { sysName := "card0-DP-2", hasStatusAttr := true,
          statusRead := none } ] = 1 ∧
    count_connected
      ({ sysName := "card1-eDP-1", hasStatusAttr := false,
          statusRead := none } ::
        [ { sysName := "card0-HDMI-A-1", hasStatusAttr := true,
            statusRead := some "connected" } ]) =
      count_connected
        [ { sysName := "card0-HDMI-A-1", hasStatusAttr := true,
            statusRead := some "connected" } ] :=
  ⟨by rw [(probe_counts_connected _).1]; decide,
    (probe_counts_connected
        [ { sysName := "card0-HDMI-A-1", hasStatusAttr := true,
            statusRead := some "connected" } ]).2.1
      { sysName := "card1-eDP-1", hasStatusAttr := false, statusRead := none }
      rfl⟩

/-! ## The readiness wait loop

`_wait_for_displays_ready` sleeps `1.0` s, then polls the connector scan
every `0.2` s while `waited < max_wait = 5.0` s, returning `True` as soon as
a connected display is seen and `True` again once the budget is exhausted.
Durations are embedded in tenths of a second (exact arithmetic), so the loop
starts at `waited = 10` and exits at `waited = 50`; the guard
`waited < 50` with step `2` admits exactly `20` iterations, which is the
fuel of the structural recursion below.  `enum k` is the device enumeration
observed by the `k`-th poll. -/

/-- Result of the readiness wait: the Python return value (always `True`),
the total waited time in tenths of a second at the moment of return, and the
number of connector scans performed. -/
structure WaitResult where
  value : Bool
  waited : Nat
  polls : Nat
deriving DecidableEq

/-- The polling loop of `_wait_for_displays_ready`; `fuel` counts the
iterations still admitted by the guard `waited < 50` (step `2`). -/
def pollLoop (enum : Nat → List DrmDevice) : Nat → Nat → Nat → WaitResult
  | 0, _, waited => { value := true, waited := waited, polls := 0 }
  | fuel + 1, k, waited =>
    if 0 < count_connected (enum k) then
      { value := true, waited := waited, polls := 1 }
    else
      let r := pollLoop enum fuel (k + 1) (waited + 2)
      { value := r.value, waited := r.waited, polls := r.polls + 1 }

/-- `_wait_for_displays_ready`: settle `1.0` s (`waited = 10` tenths), then
poll at `0.2` s intervals up to `max_wait = 5.0` s (`50` tenths, i.e. `20`
polls). -/
def wait_for_displays_ready (enum : Nat → List DrmDevice) : WaitResult :=
  pollLoop enum 20 0 10

lemma pollLoop_value (enum : Nat → List DrmDevice) :
    ∀ fuel k waited, (pollLoop enum fuel k waited).value = true := by
  intro fuel
  induction fuel with
  | zero => intro k waited; rfl
  | succ n ih =>
    intro k waited
    by_cases h : 0 < count_connected (enum k)
    · simp [pollLoop, h]
    · simp [pollLoop, h, ih]

lemma pollLoop_waited_le (enum : Nat → List DrmDevice) :
    ∀ fuel k waited,
      (pollLoop enum fuel k waited).waited ≤ waited + 2 * fuel := by
  intro fuel
  induction fuel with
  | zero => intro k waited; simp [pollLoop]
  | succ n ih =>
    intro k waited
    by_cases h : 0 < count_connected (enum k)
    · simp only [pollLoop, h, if_true]
      omega
    · simp only [pollLoop, h, if_false]
      have := ih (k + 1) (waited + 2)
      omega

lemma pollLoop_waited_all_zero (enum : Nat → List DrmDevice)
    (hzero : ∀ j, count_connected (enum j) = 0) :
    ∀ fuel k waited,
      (pollLoop enum fuel k waited).waited = waited + 2 * fuel := by
  intro fuel
  induction fuel with
  | zero => intro k waited; simp [pollLoop]
  | succ n ih =>
    intro k waited
    have h : ¬ 0 < count_connected (enum k) := by simp [hzero k]
    simp only [pollLoop, h, if_false]
    have := ih (k + 1) (waited + 2)
    omega

lemma pollLoop_polls_pos (enum : Nat → List DrmDevice) :
    ∀ fuel k waited, 0 < fuel → 0 < (pollLoop enum fuel k waited).polls := by
  intro fuel
  cases fuel with
  | zero => intro k waited h; exact absurd h (by simp)
  | succ n =>
    intro k waited _
    simp only [pollLoop]
    by_cases h : 0 < count_connected (enum k)
    · simp [h]
    · simp [h]

/-! ## Command execution (`_execute_command`, monitor.py lines 91-120)

`subprocess.run` is modelled by its observable outcome: either a completed
process (return code, stdout, stderr) or a raised exception —
`TimeoutExpired` after the 30-second timeout, or any other spawn error.  The
`try` body is a value of `Except SubprocErr CompletedProcess`, and the two
`except` clauses of the source cover both error constructors, which is how
`_execute_command` is total (never propagates an exception). -/

/-- Exceptions the `try` block of `_execute_command` can observe:
`subprocess.TimeoutExpired` (hard 30 s timeout) or any other `Exception`
during spawn. -/
inductive SubprocErr where
  | timedOut
  | spawnFailure (msg : String)
deriving DecidableEq

/-- The observable behaviour of one `subprocess.run` invocation. -/
inductive SubprocOutcome where
  | completed (returncode : Int) (stdout stderr : String)
  | fails (e : SubprocErr)
deriving DecidableEq

/-- The `try` body: `subprocess.run(command, shell=True, capture_output=True,
text=True, timeout=30)` either yields a completed process or raises. -/
def run_subprocess (outcome : SubprocOutcome) :
    Except SubprocErr (Int × String × String) :=
  match outcome with
  | .completed rc out err => .ok (rc, out, err)
  | .fails e => .error e

/-- Severity levels used by the monitor's logger. -/
inductive PyLogLevel where
  | debug
  | info
  | warning
  | error
deriving DecidableEq

/-- Observable result of `_execute_command`: whether `subprocess.run` was
invoked at all, and the log entries emitted.  Returning an `ExecResult`
(rather than an `Except`) is the embedding of "returns normally". -/
structure ExecResult where
  invoked : Bool
  logs : List (PyLogLevel × String)
deriving DecidableEq

/-- `_execute_command`: return early when the desktop is excluded; otherwise
run the command and handle every outcome, logging success at info, non-zero
exit at warning, timeout and spawn failure at error.  Both `except` clauses
of the source are the `.error` branches here, so every `SubprocOutcome` maps
to a normal return. -/
def execute_command (desktop : Option String) (cfgExcluded command : String)
    (outcome : SubprocOutcome) : ExecResult :=
  if is_desktop_excluded desktop cfgExcluded then
    { invoked := false, logs := [] }
  else
    let hdr : PyLogLevel × String :=
      (.info, "Executing command: " ++ command)
    match run_subprocess outcome with
    | .ok (rc, out, err) =>
      if rc = 0 then
        { invoked := true,
          logs := [hdr, (.info, "Command executed successfully")] ++
            (if out ≠ "" then [(.debug, "Output: " ++ out)] else []) }
      else
        { invoked := true,
          logs := [hdr,
              (.warning, "Command failed with return code " ++ toString rc)] ++
            (if err ≠ "" then [(.warning, "Error: " ++ err)] else []) }
    | .error .timedOut =>
      { invoked := true,
        logs := [hdr, (.error, "Command execution timed out")] }
    | .error (.spawnFailure m) =>
      { invoked := true,
        logs := [hdr, (.error, "Error executing command: " ++ m)] }

/-- C6: `_execute_command` returns a normal result for every possible
outcome of `subprocess.run` — when not excluded the command is spawned
exactly once regardless of how it ends; a non-zero exit is logged as a
warning, a timeout as an error with no retry, and any spawn failure as an
error.  No branch of the embedding is an exceptional return, which is the
shallow form of "never propagates an exception to its caller". -/
theorem execute_command_never_propagates (desktop : Option String)
    (cfgExcluded command : String) (outcome : SubprocOutcome)
    (hnotexcl : is_desktop_excluded desktop cfgExcluded = false) :
    (execute_command desktop cfgExcluded command outcome).invoked = true ∧
    (∀ rc out err, outcome = .completed rc out err → rc ≠ 0 →
      (PyLogLevel.warning, "Command failed with return code " ++ toString rc)
        ∈ (execute_command desktop cfgExcluded command outcome).logs) ∧
    (outcome = .fails .timedOut →
      (PyLogLevel.error, "Command execution timed out")
        ∈ (execute_command desktop cfgExcluded command outcome).logs) ∧
    (∀ m, outcome = .fails (.spawnFailure m) →
      (PyLogLevel.error, "Error executing command: " ++ m)
        ∈ (execute_command desktop cfgExcluded command outcome).logs) := by
  refine ⟨?_, ?_, ?_, ?_⟩
  · cases outcome with
    | completed rc out err =>
      by_cases hrc : rc = 0
      · simp [execute_command, hnotexcl, run_subprocess, hrc]
      · simp [execute_command, hnotexcl, run_subprocess, hrc]
    | fails e =>
      cases e <;> simp [execute_command, hnotexcl, run_subprocess]
  · rintro rc out err rfl hrc
    simp [execute_command, hnotexcl, run_subprocess, hrc]
  · rintro rfl
    simp [execute_command, hnotexcl, run_subprocess]
  · rintro m rfl
    simp [execute_command, hnotexcl, run_subprocess]

theorem execute_command_never_propagates_witness :
    is_desktop_excluded none "COSMIC,GNOME,KDE,Plasma,XFCE,X-Cinnamon" = false ∧
    (PyLogLevel.warning, "Command failed with return code 1")
      ∈ (execute_command none "COSMIC,GNOME,KDE,Plasma,XFCE,X-Cinnamon"
          "autorandr -c"
          (.completed 1 "" "xrandr: command not found")).logs :=
  ⟨rfl,
    (execute_command_never_propagates none
        "COSMIC,GNOME,KDE,Plasma,XFCE,X-Cinnamon" "autorandr -c"
        (.completed 1 "" "xrandr: command not found") rfl).2.1
      1 "" "xrandr: command not found" rfl (by decide)⟩

/-! ## The debounce-expiry path (`execute_with_wait`, monitor.py lines
129-131)

When the debounce timer fires it runs `_wait_for_displays_ready()` first and
`_execute_command()` second; the exclusion check happens only inside
`_execute_command`, after the readiness wait. -/

/-- Trace of one expiry of the debounce timer: whether at least one
readiness probe (connector scan) was performed, the value the readiness wait
returned, and the result of `_execute_command`. -/
structure ExpiryTrace where
  probedReadiness : Bool
  waitValue : Bool
  commandResult : ExecResult
deriving DecidableEq

/-- `execute_with_wait`, the timer callback: readiness wait, then command
execution. -/
def execute_with_wait (desktop : Option String) (cfgExcluded command : String)
    (enum : Nat → List DrmDevice) (outcome : SubprocOutcome) : ExpiryTrace :=
  let w := wait_for_displays_ready enum
  { probedReadiness := decide (0 < w.polls),
    waitValue := w.value,
    commandResult := execute_command desktop cfgExcluded command outcome }

/-- C3: `_wait_for_displays_ready` returns normally (`True`) for every
enumeration of connector states, after a total wait of at most `5.0` s
(`50` tenths); a display connected at the first poll ends the wait right
after the `1.0` s settle delay, an enumeration that never shows a connected
display exhausts exactly the `5.0` s budget, and the Action Trigger still
runs afterwards: the expiry path's command phase is exactly
`_execute_command`, whatever the probe saw. -/
theorem wait_for_displays_ready_total (enum : Nat → List DrmDevice) :
    (wait_for_displays_ready enum).value = true ∧
    (wait_for_displays_ready enum).waited ≤ 50 ∧
    (0 < count_connected (enum 0) →
      (wait_for_displays_ready enum).waited = 10) ∧
    ((∀ j, count_connected (enum j) = 0) →
      (wait_for_displays_ready enum).waited = 50) ∧
    (∀ desktop cfgExcluded command outcome,
      (execute_with_wait desktop cfgExcluded command enum
          outcome).commandResult =
        execute_command desktop cfgExcluded command outcome) := by
  refine ⟨pollLoop_value enum 20 0 10, ?_, ?_, ?_, fun _ _ _ _ => rfl⟩
  · have := pollLoop_waited_le enum 20 0 10
    simpa [wait_for_displays_ready] using this
  · intro h
    simp [wait_for_displays_ready, pollLoop, h]
  · intro h
    have := pollLoop_waited_all_zero enum h 20 0 10
    simpa [wait_for_displays_ready] using this

theorem wait_for_displays_ready_total_witness :
    (wait_for_displays_ready (fun _ => [])).value = true ∧
    (wait_for_displays_ready (fun _ => [])).waited = 50 :=
  ⟨(wait_for_displays_ready_total (fun _ => [])).1,
    (wait_for_displays_ready_total (fun _ => [])).2.2.2.1 (fun _ => rfl)⟩

/-- C4 fails on the code: with detected desktop `"KDE"` and `"kde"`
configured as excluded, the debounce-expiry path does skip the command, but
it does probe display readiness — `execute_with_wait` runs
`_wait_for_displays_ready` before `_execute_command` ever checks the
exclusion.  The claim's conjunct "without probing display readiness" is
therefore false at this input. -/
theorem kde_excluded_expiry_still_probes_counterexample :
    ¬ ((execute_with_wait (some "KDE") "kde" "autorandr -c" (fun _ => [])
          (.completed 0 "" "")).commandResult.invoked = false ∧
       (execute_with_wait (some "KDE") "kde" "autorandr -c" (fun _ => [])
          (.completed 0 "" "")).probedReadiness = false) := by
  intro h
  have hp := h.2
  have : (execute_with_wait (some "KDE") "kde" "autorandr -c" (fun _ => [])
      (.completed 0 "" "")).probedReadiness = true := by
    simp only [execute_with_wait]
    have := pollLoop_polls_pos (fun _ => []) 20 0 10 (by omega)
    simpa [wait_for_displays_ready] using this
  rw [this] at hp
  exact absurd hp (by simp)

/-- C4 amended: with detected desktop `"KDE"` and `"kde"` configured as
excluded, the debounce-expiry path returns without invoking the configured
command, but readiness probing still occurs (at least one connector scan),
because the readiness wait runs before the exclusion check. -/
theorem kde_excluded_expiry_skips_command_but_probes
    (command : String) (enum : Nat → List DrmDevice)
    (outcome : SubprocOutcome) :
    (execute_with_wait (some "KDE") "kde" command enum
        outcome).commandResult.invoked = false ∧
    (execute_with_wait (some "KDE") "kde" command enum
        outcome).probedReadiness = true := by
  constructor
  · have hexcl : is_desktop_excluded (some "KDE") "kde" = true := by decide
    simp [execute_with_wait, execute_command, hexcl]
  · simp only [execute_with_wait]
    have := pollLoop_polls_pos enum 20 0 10 (by omega)
    simpa [wait_for_displays_ready] using this

/-! ## The Monitor Loop (`monitor` and `main`, monitor.py lines 184-221) -/

/-- How the udev polling loop ends, once entered: a `KeyboardInterrupt`, or
any other exception raised inside the loop. -/
inductive LoopEnd where
  | interrupted
  | failed (msg : String)
deriving DecidableEq

/-- Observable outcome of `ScreenMonitor.monitor()` (which `main` returns to
`sys.exit`): the exit status, whether the netlink event source was opened,
and how many times the exclusion policy was evaluated during the startup
check. -/
structure MonitorOutcome where
  exitCode : Int
  openedEventSource : Bool
  startupExclusionChecks : Nat
deriving DecidableEq

/-- `monitor()`: evaluate the exclusion policy once; if excluded, return `0`
before `pyudev.Context()` / `Monitor.from_netlink` are ever reached;
otherwise open the event source and run the loop until it ends, returning
`0` on interrupt and `1` on any other loop error. -/
def monitor_run (desktop : Option String) (cfgExcluded : String)
    (loopEnd : LoopEnd) : MonitorOutcome :=
  if is_desktop_excluded desktop cfgExcluded then
    { exitCode := 0, openedEventSource := false, startupExclusionChecks := 1 }
  else
    match loopEnd with
    | .interrupted =>
      { exitCode := 0, openedEventSource := true, startupExclusionChecks := 1 }
    | .failed _ =>
      { exitCode := 1, openedEventSource := true, startupExclusionChecks := 1 }

/-- C9: when the exclusion policy evaluates to excluded at startup, the
monitor exits with status 0 without ever opening the kernel notification
channel, having evaluated the exclusion policy exactly once — independently
of how the (never entered) loop would have ended. -/
theorem excluded_startup_exits_clean (desktop : Option String)
    (cfgExcluded : String) (loopEnd : LoopEnd)
    (hexcl : is_desktop_excluded desktop cfgExcluded = true) :
    monitor_run desktop cfgExcluded loopEnd =
      { exitCode := 0, openedEventSource := false,
        startupExclusionChecks := 1 } := by
  simp [monitor_run, hexcl]

theorem excluded_startup_exits_clean_witness :
    is_desktop_excluded (some "KDE")
      "COSMIC,GNOME,KDE,Plasma,XFCE,X-Cinnamon" = true ∧
    monitor_run (some "KDE") "COSMIC,GNOME,KDE,Plasma,XFCE,X-Cinnamon"
        LoopEnd.interrupted =
      { exitCode := 0, openedEventSource := false,
        startupExclusionChecks := 1 } :=
  ⟨by decide,
    excluded_startup_exits_clean (some "KDE")
      "COSMIC,GNOME,KDE,Plasma,XFCE,X-Cinnamon" LoopEnd.interrupted
      (by decide)⟩

end Screenwatch
